import Mathlib

/-!
Verification of the thermofeel solar-position and radiative-forcing core.

A shallow embedding, in real arithmetic, of the solar-position and mean-radiant-
temperature functions of `ThermoFeel.py`:

* `julian_date` — the `__julian_date` formula (note: Python 3 `/` is true division);
* `wrap360`, `fractional_year_angle`, `declination_series`, `declination_angle` —
  the `__declination_angle` function with its `while (g > 360)` wrap loop;
* `calculate_cos_solar_zenith_angle` — instantaneous cosine of the solar zenith angle;
* `horizon`, `solar_zenith_angle_average`, `calculate_cos_solar_zenith_angle_integrated`
  — the period-averaged cosine of the solar zenith angle with its recursive
  horizon resolution;
* `calculate_mean_radiant_temperature` — returns the pair (result, value held by
  the `fdir` input array after the call), making the in-place update of `fdir`
  at line 313 of the source observable.

All array operations in the source are elementwise (`np.vectorize`, `np.where`
masking, scalar broadcasting), so each definition models the per-grid-point
scalar computation.
-/

namespace ThermoFeel

noncomputable section

/-- The constant `to_radians = np.pi / 180` (line 24 of the source). -/
def to_radians : ℝ := Real.pi / 180

/-- The function `__julian_date(d, m, y)` exactly as written in the source, where `/` is
Python 3 true division (real division), not integer division. -/
def julian_date (d m y : ℝ) : ℝ :=
  d - 32075 + 1461 * (y + 4800 + (m - 14) / 12) / 4
    + 367 * (m - 2 - (m - 14) / 12 * 12) / 12
    - 3 * ((y + 4900 + (m - 14) / 12) / 100) / 4

/-- Modelled from the spec: the floor-division Julian-day formula that §4.2 of
the specification mandates (`all intermediate divisions are integer (floor)
division`); the source file itself contains no integer-division version, so
this reference definition follows the spec's words using `Int.fdiv`
(floor division) for every intermediate division. -/
def julian_date_floor (d m y : ℤ) : ℤ :=
  d - 32075 + Int.fdiv (1461 * (y + 4800 + Int.fdiv (m - 14) 12)) 4
    + Int.fdiv (367 * (m - 2 - Int.fdiv (m - 14) 12 * 12)) 12
    - Int.fdiv (3 * (Int.fdiv (y + 4900 + Int.fdiv (m - 14) 12) 100)) 4

/-- Modelled from the spec: the same formula with truncating (round-toward-zero)
integer division, the semantics of the Fortran integer arithmetic the
Fliegel–Van Flandern Julian-day formula was designed for. This is the variant
that reproduces the spec's reference value 2451545 for Jan 1, 2000. -/
def julian_date_trunc (d m y : ℤ) : ℤ :=
  d - 32075 + Int.tdiv (1461 * (y + 4800 + Int.tdiv (m - 14) 12)) 4
    + Int.tdiv (367 * (m - 2 - Int.tdiv (m - 14) 12 * 12)) 12
    - Int.tdiv (3 * (Int.tdiv (y + 4900 + Int.tdiv (m - 14) 12) 100)) 4

/-- The `while (g > 360): g = g - 360` loop of `__declination_angle`
(lines 35–36 of the source). -/
def wrap360 (g : ℝ) : ℝ :=
  if g > 360 then wrap360 (g - 360) else g
termination_by (⌈g / 360⌉).toNat
decreasing_by
  have h1 : (1 : ℝ) < g / 360 := (lt_div_iff (by norm_num)).2 (by linarith)
  have h2 : (g - 360) / 360 = g / 360 - 1 := by ring
  have h3 : (0 : ℤ) < ⌈g / 360⌉ := Int.ceil_pos.2 (by linarith)
  have h4 : ⌈(g - 360) / 360⌉ = ⌈g / 360⌉ - 1 := by rw [h2, Int.ceil_sub_one]
  rw [h4]
  exact (Int.toNat_lt_toNat h3).2 (by omega)

/-- The fractional-year angle `g = (360 / 365.25) * (jd + h / 24)` of
`__declination_angle` (line 34 of the source). -/
def fractional_year_angle (jd h : ℝ) : ℝ :=
  (360 / 365.25) * (jd + h / 24)

/-- The two truncated Fourier series of `__declination_angle`
(lines 39–43 of the source), evaluated on the wrapped angle `g` in degrees:
first component the declination `d`, second the time correction `tc`. -/
def declination_series (g : ℝ) : ℝ × ℝ :=
  let grad := g * to_radians
  (0.396372 - 22.91327 * Real.cos grad + 4.02543 * Real.sin grad
      - 0.387205 * Real.cos (2 * grad) + 0.051967 * Real.sin (2 * grad)
      - 0.154527 * Real.cos (3 * grad) + 0.084798 * Real.sin (3 * grad),
   0.004297 + 0.107029 * Real.cos grad - 1.837877 * Real.sin grad
      - 0.837378 * Real.cos (2 * grad) - 2.340475 * Real.sin (2 * grad))

/-- The function `__declination_angle(jd, h)` (lines 33–44 of the source): wrap the
fractional-year angle into the range enforced by the `while` loop, convert to
radians, evaluate the two series. -/
def declination_angle (jd h : ℝ) : ℝ × ℝ :=
  declination_series (wrap360 (fractional_year_angle jd h))

/-- The function `calculate_cos_solar_zenith_angle(lat, lon, y, m, d, h)`
(lines 142–177 of the source); `np.clip(csza, 0, None)` is `max csza 0`. -/
def calculate_cos_solar_zenith_angle (lat lon y m d h : ℝ) : ℝ :=
  let jd_ := julian_date d m y
  let jd11_ := julian_date 1 1 y
  let jd := jd_ - jd11_ + 1
  let dtc := declination_angle jd h
  let drad := dtc.1 * to_radians
  let latrad := lat * to_radians
  let sindec_sinlat := Real.sin drad * Real.sin latrad
  let cosdec_coslat := Real.cos drad * Real.cos latrad
  let sharad := ((h - 12) * 15 + lon + dtc.2) * to_radians
  let csza := sindec_sinlat + cosdec_coslat * Real.cos sharad
  max csza 0

/-- The inner recursive `horizon(val, rrange, lonrad, zsolartimestart,
zsolartimeend, maxx)` of `calculate_cos_solar_zenith_angle_integrated`
(lines 252–264 of the source). `rrange` and `maxx` are the float values
`2.0, 4.0, …` and `100.0`; since every value reached is a natural number they
are carried as naturals, compared and cast exactly as the source compares
them. -/
def horizon (val : ℝ) (rrange : ℕ) (lonrad zsolartimestart zsolartimeend : ℝ)
    (maxx : ℕ) : ℝ × ℝ :=
  if val < (rrange : ℝ) * Real.pi then
    (zsolartimestart + lonrad - ((rrange : ℝ) - 1) * Real.pi,
     zsolartimeend + lonrad - ((rrange : ℝ) - 1) * Real.pi)
  else if rrange < maxx then
    horizon val (rrange + 2) lonrad zsolartimestart zsolartimeend maxx
  else
    (zsolartimestart + lonrad - ((maxx : ℝ) + 1) * Real.pi,
     zsolartimeend + lonrad - ((maxx : ℝ) + 1) * Real.pi)
termination_by maxx - rrange
decreasing_by omega

/-- Number of evaluations of `horizon` performed by a call (the call itself
plus its recursive calls): the recursion-depth measure of the horizon
search. -/
def horizon_steps (val : ℝ) (rrange maxx : ℕ) : ℕ :=
  if val < (rrange : ℝ) * Real.pi then 1
  else if rrange < maxx then 1 + horizon_steps val (rrange + 2) maxx
  else 1
termination_by maxx - rrange
decreasing_by omega

/-- The body of the loop version of the horizon search mandated by §9 of the
specification: iterate over the remaining multipliers `r`; on the first `r`
with `val < r·π` shift the window by `lonrad − (r−1)·π`; if the list of
multipliers is exhausted apply the saturated shift `lonrad − 101·π`. -/
def horizon_loop_go (val lonrad zsolartimestart zsolartimeend : ℝ) :
    List ℕ → ℝ × ℝ
  | [] =>
    (zsolartimestart + lonrad - 101 * Real.pi,
     zsolartimeend + lonrad - 101 * Real.pi)
  | r :: rs =>
    if val < (r : ℝ) * Real.pi then
      (zsolartimestart + lonrad - ((r : ℝ) - 1) * Real.pi,
       zsolartimeend + lonrad - ((r : ℝ) - 1) * Real.pi)
    else horizon_loop_go val lonrad zsolartimestart zsolartimeend rs

/-- The explicit bounded loop over `r = 2, 4, …, 100` (fifty candidate
multipliers) replacing the recursion, per §9 of the specification. -/
def horizon_loop (val lonrad zsolartimestart zsolartimeend : ℝ) : ℝ × ℝ :=
  horizon_loop_go val lonrad zsolartimestart zsolartimeend (List.range' 2 50 2)

/-- The inner `solar_zenith_angle_average` of
`calculate_cos_solar_zenith_angle_integrated` (lines 250–285 of the source),
which `np.vectorize` applies elementwise. The assignment `PMU0 = 0` at
line 276 is always overwritten by the following `if/else` and is dropped. -/
def solar_zenith_angle_average (lonrad zcoshouranglesunset zsindecsinlat
    zcosdeccoslat zsolartimestart zsolartimeend sha : ℝ) (maxx : ℕ) : ℝ :=
  if zcoshouranglesunset ≤ 1 then
    let hs := horizon (sha * Real.pi / 180 + lonrad) 2 lonrad
      zsolartimestart zsolartimeend maxx
    let hs' :=
      if zcoshouranglesunset ≥ -1 then
        let zhouranglesunset := Real.arccos zcoshouranglesunset
        (max (-zhouranglesunset) (min hs.1 zhouranglesunset),
         max (-zhouranglesunset) (min hs.2 zhouranglesunset))
      else hs
    if hs'.2 - hs'.1 > 1e-8 then
      max 0 (zsindecsinlat +
        zcosdeccoslat * (Real.sin hs'.2 - Real.sin hs'.1) / (hs'.2 - hs'.1))
    else 0
  else 0

/-- The quantity `ztandec = sin(d·π/180) / max(cos(d·π/180), 1.0e-12)` (line 245 of the
source), as a function of the declination `dd` in degrees. -/
def ztandec_of (dd : ℝ) : ℝ :=
  Real.sin (dd * Real.pi / 180) / max (Real.cos (dd * Real.pi / 180)) 1e-12

/-- The quantity `zcoshouranglesunset = -ztandec * np.sin(latrad) / np.clip(np.cos(latrad),
1.0e-12, None)` (line 246 of the source), with the declination recomputed from
the same day-of-year and hour the integrated function feeds to
`__declination_angle`. -/
def zcoshouranglesunset_of (lat y m d h : ℝ) : ℝ :=
  -ztandec_of ((declination_angle (julian_date d m y - julian_date 1 1 y + 1) h).1)
      * Real.sin (lat * to_radians)
      / max (Real.cos (lat * to_radians)) 1e-12

/-- The function `calculate_cos_solar_zenith_angle_integrated(lat, lon, y, m, d, h, base,
step)` (lines 180–287 of the source). The per-base/per-step offset table
(lines 197–220) is computed and then discarded by the overrides `hh = h` and
`maxx = 100.0` at lines 224–225, exactly as in the source. -/
def calculate_cos_solar_zenith_angle_integrated (lat lon y m d h : ℝ)
    (base : ℤ) (step : ℝ) : ℝ :=
  let base_offset : ℝ :=
    if base = 0 then 0 else if base = 6 then 594
    else if base = 18 then 1806 else if base = 12 then 1212 else 0
  let h_offset : ℝ :=
    if step = 1 then 0.5 else if step = 3 then 1.5
    else if step = 6 then 3 else 0
  let maxx0 : ℝ :=
    if step = 1 then 32 else if step = 3 then 14
    else if step = 6 then 100 else 0
  let hh0 := h - base_offset - h_offset
  let hh := h
  let maxx : ℕ := 100
  let jd := julian_date d m y - julian_date 1 1 y + 1
  let dtc := declination_angle jd hh
  let dd := dtc.1
  let tc := dtc.2
  let sha := (hh - 12) * 15 + (lon + 180) / 2 + tc
  let latrad := lat * to_radians
  let lonrad := (lon + 180) / 2 * to_radians
  let accumulationperiod := step
  let zhalftimestep := 2 * Real.pi / 24 * accumulationperiod / 2
  let zsolartimestart := sha * Real.pi / 180 - zhalftimestep
  let zsolartimeend := sha * Real.pi / 180 + zhalftimestep
  let zsindecsinlat := Real.sin (dd * Real.pi / 180) * Real.sin latrad
  let zcosdeccoslat := Real.cos (dd * Real.pi / 180) * Real.cos latrad
  solar_zenith_angle_average lonrad (zcoshouranglesunset_of lat y m d hh)
    zsindecsinlat zcosdeccoslat zsolartimestart zsolartimeend sha maxx

/-- The function `calculate_mean_radiant_temperature(ssrd, ssr, fdir, strd, strr, cossza)`
(lines 290–320 of the source). The source updates the caller's `fdir` array
in place at line 313 (`fdir[filter] = fdir[filter]/cossza[filter]` where
`cossza > 0.01`); elementwise this is the value `fdir'` below, which the
final formula then uses. The returned pair is (mean radiant temperature in
Celsius, value held by the `fdir` input array after the call). -/
def calculate_mean_radiant_temperature (ssrd ssr fdir strd strr cossza : ℝ) :
    ℝ × ℝ :=
  let dsw := ssrd - fdir
  let rsw := ssrd - ssr
  let lur := strd - strr
  let gamma := Real.arcsin cossza * 180 / Real.pi
  let fp := 0.308 * Real.cos (Real.pi / 180) * gamma * 0.998
    - gamma * gamma / 50000
  let fdir' := if cossza > 0.01 then fdir / cossza else fdir
  let mrtcal := ((1 / 0.0000000567) * (0.5 * strd + 0.5 * lur
    + (0.7 / 0.97) * (0.5 * dsw + 0.5 * rsw + fp * fdir'))) ^ (0.25 : ℝ)
  (mrtcal - 273.15, fdir')

/-- The closed form that `calculate_mean_radiant_temperature` takes on inputs
with `fdir = 0`, `ssr = ssrd` and `cossza = 0`: the `fp`-weighted direct-beam
term vanishes, but the diffuse term `0.5 · dsw = 0.5 · ssrd` remains. -/
def mrt_diffuse_form (ssrd strd strr : ℝ) : ℝ :=
  ((1 / 0.0000000567) * (0.5 * strd + 0.5 * (strd - strr)
    + (0.7 / 0.97) * (0.5 * ssrd))) ^ (0.25 : ℝ) - 273.15

end

/-! ## Helper lemmas -/

/-- The wrap loop never stops above 360. -/
lemma wrap360_le (g : ℝ) : wrap360 g ≤ 360 := by
  induction g using wrap360.induct with
  | case1 g hg ih => rw [wrap360, if_pos hg]; exact ih
  | case2 g hg => rw [wrap360, if_neg hg]; linarith [not_lt.1 hg]

/-- The wrap loop preserves strict positivity. -/
lemma wrap360_pos {g : ℝ} (h : 0 < g) : 0 < wrap360 g := by
  induction g using wrap360.induct with
  | case1 g hg ih => rw [wrap360, if_pos hg]; exact ih (by linarith)
  | case2 g hg => rw [wrap360, if_neg hg]; exact h

/-- The wrap loop only changes its argument by an integer multiple of 360. -/
lemma wrap360_sub_int (g : ℝ) : ∃ n : ℤ, wrap360 g = g - 360 * n := by
  induction g using wrap360.induct with
  | case1 g hg ih =>
    obtain ⟨n, hn⟩ := ih
    refine ⟨n + 1, ?_⟩
    rw [wrap360, if_pos hg, hn]
    push_cast
    ring
  | case2 g hg => exact ⟨0, by rw [wrap360, if_neg hg]; push_cast; ring⟩

/-- Both Fourier series of `__declination_angle` are invariant under shifting
the angle (in degrees) by an integer multiple of 360. -/
lemma declination_series_add_int (g : ℝ) (n : ℤ) :
    declination_series (g + 360 * n) = declination_series g := by
  unfold declination_series to_radians
  have h1 : (g + 360 * n) * (Real.pi / 180)
      = g * (Real.pi / 180) + (n : ℝ) * (2 * Real.pi) := by push_cast; ring
  have h2 : 2 * (g * (Real.pi / 180) + (n : ℝ) * (2 * Real.pi))
      = 2 * (g * (Real.pi / 180)) + ((2 * n : ℤ) : ℝ) * (2 * Real.pi) := by
    push_cast; ring
  have h3 : 3 * (g * (Real.pi / 180) + (n : ℝ) * (2 * Real.pi))
      = 3 * (g * (Real.pi / 180)) + ((3 * n : ℤ) : ℝ) * (2 * Real.pi) := by
    push_cast; ring
  simp only [h1]
  simp only [h2, h3, Real.cos_add_int_mul_two_pi, Real.sin_add_int_mul_two_pi]

/-- The wrap loop is invisible to the trigonometric series: `__declination_angle`
computes the series of the unwrapped fractional-year angle. -/
lemma declination_angle_eq_series (jd h : ℝ) :
    declination_angle jd h = declination_series (fractional_year_angle jd h) := by
  unfold declination_angle
  obtain ⟨n, hn⟩ := wrap360_sub_int (fractional_year_angle jd h)
  have h' : wrap360 (fractional_year_angle jd h)
      = fractional_year_angle jd h + 360 * ((-n : ℤ) : ℝ) := by
    rw [hn]; push_cast; ring
  rw [h', declination_series_add_int]

/-- Shifting the day of year by `365.25 · k` shifts the fractional-year angle
by exactly `360 · k` degrees. -/
lemma fractional_year_angle_add (jd h : ℝ) (k : ℤ) :
    fractional_year_angle (jd + 365.25 * k) h
      = fractional_year_angle jd h + 360 * k := by
  unfold fractional_year_angle
  have h365 : (360 / 365.25 : ℝ) * 365.25 = 360 := by norm_num
  push_cast
  linear_combination (k : ℝ) * h365

/-! ## Claims -/

/-- Claim C1, counterexample: As written in the source — with Python 3 true
division — `__julian_date(1, 1, 2000)` is not the integer 2451545 the claim
asserts. -/
theorem julian_date_epoch_not_2451545 : julian_date 1 1 2000 ≠ 2451545 := by
  unfold julian_date
  norm_num

/-- Claim C1, amended: `__julian_date` computes with real (true) division in
every intermediate division, so its results are not integer valued:
`julian_date(1, 1, 2000) = 2451545.570625 = 2451545 + 913/1600`. The
truncating-integer-division (Fortran-style) reading of the same formula
returns exactly the reference value 2451545, while the floor-division reading
the spec prescribes returns 2451547. -/
theorem julian_date_true_division_value :
    julian_date 1 1 2000 = 2451545 + 913 / 1600 ∧
    julian_date_trunc 1 1 2000 = 2451545 ∧
    julian_date_floor 1 1 2000 = 2451547 := by
  refine ⟨?_, by decide, by decide⟩
  unfold julian_date
  norm_num

/-- Claim C2: The per-base-time offset table of
`calculate_cos_solar_zenith_angle_integrated` is dead logic: the result does
not depend on the `base` argument — for any two base values among
`{0, 6, 12, 18}` (all other inputs equal) the outputs coincide. -/
theorem integrated_independent_of_base (lat lon y m d h step : ℝ) (b1 b2 : ℤ)
    (hb1 : b1 ∈ [0, 6, 12, 18]) (hb2 : b2 ∈ [0, 6, 12, 18]) :
    calculate_cos_solar_zenith_angle_integrated lat lon y m d h b1 step =
      calculate_cos_solar_zenith_angle_integrated lat lon y m d h b2 step := rfl

/-- Claim C2, witness: Concrete instance: base 0 and base 18 give the same
output. -/
theorem integrated_independent_of_base_witness :
    (0 : ℤ) ∈ [0, 6, 12, 18] ∧ (18 : ℤ) ∈ [0, 6, 12, 18] ∧
    calculate_cos_solar_zenith_angle_integrated 45 10 2000 6 15 12 0 6 =
      calculate_cos_solar_zenith_angle_integrated 45 10 2000 6 15 12 18 6 :=
  ⟨by decide, by decide,
    integrated_independent_of_base 45 10 2000 6 15 12 6 0 18 (by decide) (by decide)⟩

/-- Evaluation of `calculate_mean_radiant_temperature` on inputs with
`fdir = 0`, `ssr = ssrd`, `cossza = 0`: shared helper for the C3 theorem and
counterexample. -/
lemma mrt_diffuse_eval (ssrd strd strr : ℝ) :
    (calculate_mean_radiant_temperature ssrd ssrd 0 strd strr 0).1 =
      mrt_diffuse_form ssrd strd strr := by
  unfold calculate_mean_radiant_temperature mrt_diffuse_form
  simp only [Real.arcsin_zero]
  rw [if_neg (by norm_num : ¬ ((0 : ℝ) > 0.01))]
  norm_num

/-- Claim C3, counterexample: With `fdir = 0`, `ssr = ssrd` and `cos_zenith = 0`
throughout, changing `ssrd` from 0 to 1 (with `strd = strr = 0` fixed)
changes the result: the returned value is not a function of `strd`/`strr`
alone. -/
theorem mrt_depends_on_ssrd :
    (calculate_mean_radiant_temperature 0 0 0 0 0 0).1 ≠
      (calculate_mean_radiant_temperature 1 1 0 0 0 0).1 := by
  rw [mrt_diffuse_eval 0 0 0, mrt_diffuse_eval 1 0 0]
  unfold mrt_diffuse_form
  have hB : ((1 / 0.0000000567) * (0.5 * (0 : ℝ) + 0.5 * ((0 : ℝ) - 0)
      + (0.7 / 0.97) * (0.5 * 0)) : ℝ) = 0 := by norm_num
  have hA : (0 : ℝ) < (1 / 0.0000000567) * (0.5 * (0 : ℝ) + 0.5 * ((0 : ℝ) - 0)
      + (0.7 / 0.97) * (0.5 * 1)) := by norm_num
  rw [hB, Real.zero_rpow (by norm_num : (0.25 : ℝ) ≠ 0)]
  have hpos := Real.rpow_pos_of_pos hA 0.25
  intro heq
  linarith

/-- Claim C3, amended: When called with `fdir = 0`, `ssr = ssrd` and
`cos_zenith = 0`, the `fp`-weighted direct-beam term does vanish, but the
diffuse term `0.5·dsw = 0.5·ssrd` survives: the result is the explicit
closed form `mrt_diffuse_form`, a pure function of `strd`, `strr` **and**
`ssrd` (not of `strd`/`strr` alone). -/
theorem mrt_reduces_to_diffuse_form (ssrd strd strr : ℝ) :
    (calculate_mean_radiant_temperature ssrd ssrd 0 strd strr 0).1 =
      mrt_diffuse_form ssrd strd strr :=
  mrt_diffuse_eval ssrd strd strr

/-- Claim C4: `calculate_mean_radiant_temperature` is not stateless: at
`ssrd = 3, ssr = 1, fdir = 2, strd = 1, strr = 0, cossza = 1/2` the in-place
update `fdir[filter] = fdir[filter]/cossza[filter]` (line 313 of the source)
overwrites the caller's `fdir` entry with `2/(1/2) = 4 ≠ 2`: the second
component of the embedding — the value held by the `fdir` input array after
the call — differs from the value passed in. -/
theorem mrt_mutates_fdir :
    (calculate_mean_radiant_temperature 3 1 2 1 0 (1 / 2)).2 ≠ 2 := by
  unfold calculate_mean_radiant_temperature
  rw [if_pos (by norm_num : ((1 : ℝ) / 2) > 0.01)]
  norm_num

/-- The pointwise zenith-cosine expression never exceeds 1: a Cauchy–Schwarz
style bound using only the Pythagorean identity and `|cos| ≤ 1`. -/
lemma sin_sin_add_cos_cos_cos_le_one (a b c : ℝ) :
    Real.sin a * Real.sin b + Real.cos a * Real.cos b * Real.cos c ≤ 1 := by
  nlinarith [Real.sin_sq_add_cos_sq a, Real.sin_sq_add_cos_sq b,
    sq_nonneg (Real.sin a - Real.sin b),
    mul_nonneg
      (by nlinarith [Real.neg_one_le_cos c] : (0 : ℝ) ≤ 1 + Real.cos c)
      (sq_nonneg (Real.cos a - Real.cos b)),
    mul_nonneg
      (by nlinarith [Real.cos_le_one c] : (0 : ℝ) ≤ 1 - Real.cos c)
      (sq_nonneg (Real.cos a + Real.cos b))]

/-- Claim C7: For all real inputs, `calculate_cos_solar_zenith_angle` returns a
value in `[0, 1]`: the clip `np.clip(csza, 0, None)` enforces the lower bound
and the expression `sin(dec)sin(lat) + cos(dec)cos(lat)cos(sha)` never
exceeds 1. -/
theorem cos_zenith_in_unit_interval (lat lon y m d h : ℝ) :
    0 ≤ calculate_cos_solar_zenith_angle lat lon y m d h ∧
      calculate_cos_solar_zenith_angle lat lon y m d h ≤ 1 := by
  unfold calculate_cos_solar_zenith_angle
  exact ⟨le_max_right _ _,
    max_le (sin_sin_add_cos_cos_cos_le_one _ _ _) zero_le_one⟩

/-- Claim C8, counterexample: At `day_of_year = 365`, `hour = 6` the
fractional-year angle is exactly 360 and the loop `while (g > 360)` leaves it
unchanged: the wrapped angle is **not** in the half-open interval `[0, 360)`
claimed. -/
theorem wrap360_boundary_counterexample :
    (1 : ℝ) ≤ 365 ∧ (0 : ℝ) ≤ 6 ∧
    ¬ wrap360 (fractional_year_angle 365 6) < 360 := by
  refine ⟨by norm_num, by norm_num, ?_⟩
  have hfy : fractional_year_angle 365 6 = 360 := by
    unfold fractional_year_angle; norm_num
  rw [hfy, wrap360, if_neg (by norm_num : ¬ ((360 : ℝ) > 360))]
  norm_num

/-- Claim C8, amended: For every `day_of_year ≥ 1` and `hour ≥ 0`, the
fractional-year angle `g = (360/365.25)·(day_of_year + hour/24)` is wrapped by
the repeated-subtraction loop into the half-open interval `(0, 360]` — the
loop condition is `g > 360`, so the value 360 itself is left in place — before
it is converted to radians and used in the Fourier series. -/
theorem wrapped_angle_in_range (jd h : ℝ) (hjd : 1 ≤ jd) (hh : 0 ≤ h) :
    0 < wrap360 (fractional_year_angle jd h) ∧
      wrap360 (fractional_year_angle jd h) ≤ 360 := by
  refine ⟨wrap360_pos ?_, wrap360_le _⟩
  unfold fractional_year_angle
  nlinarith

/-- Claim C8, witness: Instance at `day_of_year = 1`, `hour = 0`. -/
theorem wrapped_angle_in_range_witness :
    (1 : ℝ) ≤ 1 ∧ (0 : ℝ) ≤ 0 ∧
    (0 < wrap360 (fractional_year_angle 1 0) ∧
      wrap360 (fractional_year_angle 1 0) ≤ 360) :=
  ⟨le_refl 1, le_refl 0, wrapped_angle_in_range 1 0 (le_refl 1) (le_refl 0)⟩

/-- The recursion and the list-driven loop agree from any multiplier `r` with
`r + 2·n = 100`, where `range' r (n+1) 2 = [r, r+2, …, 100]` is the list of
multipliers the loop still has to visit. -/
lemma horizon_eq_loop_go (val lonrad ts te : ℝ) :
    ∀ n r : ℕ, r + 2 * n = 100 →
      horizon val r lonrad ts te 100 =
        horizon_loop_go val lonrad ts te (List.range' r (n + 1) 2) := by
  intro n
  induction n with
  | zero =>
    intro r hr
    have h100 : r = 100 := by omega
    subst h100
    rw [horizon]
    show _ = horizon_loop_go val lonrad ts te [100]
    rw [horizon_loop_go]
    split_ifs with h1 h2
    · rfl
    · omega
    · rw [horizon_loop_go]
      norm_num
  | succ n ih =>
    intro r hr
    have hlt : r < 100 := by omega
    rw [horizon]
    show _ = horizon_loop_go val lonrad ts te (r :: List.range' (r + 2) (n + 1) 2)
    rw [horizon_loop_go]
    split_ifs with h1
    · rfl
    · exact ih (r + 2) (by omega)

/-- Claim C5: The recursive horizon resolution equals the explicit bounded loop
over `r = 2, 4, …, 100`: for every `val`, `lonrad` and window bounds, the
recursion `horizon` started at `r = 2` with cap `maxx = 100` computes exactly
the pair of shifted bounds that the loop `horizon_loop` computes — shifting by
`lonrad − (r−1)·π` at the first `r` with `val < r·π`, and by the saturated
`lonrad − 101·π` when the cap is reached without resolution. -/
theorem horizon_recursion_eq_bounded_loop (val lonrad ts te : ℝ) :
    horizon val 2 lonrad ts te 100 = horizon_loop val lonrad ts te := by
  rw [horizon_loop]
  exact horizon_eq_loop_go val lonrad ts te 49 2 (by norm_num)

/-- The recursion-depth measure is bounded as soon as the remaining
multipliers cover the cap. -/
lemma horizon_steps_le (val : ℝ) :
    ∀ n r : ℕ, 100 ≤ r + 2 * n → horizon_steps val r 100 ≤ n + 1 := by
  intro n
  induction n with
  | zero =>
    intro r hr
    rw [horizon_steps]
    split_ifs with h1 h2
    · exact le_refl 1
    · omega
    · exact le_refl 1
  | succ n ih =>
    intro r hr
    rw [horizon_steps]
    split_ifs with h1 h2
    · omega
    · have := ih (r + 2) (by omega)
      omega
    · omega

/-- Claim C9: The horizon search inside
`calculate_cos_solar_zenith_angle_integrated` is a finite, bounded
computation: started at `r = 2` with the cap `maxx = 100` that the integrated
function always passes, its recursion depth (`horizon_steps`, the number of
evaluations of `horizon`'s body) is at most 50 for every input — the measure
`100 − r` decreases by 2 at each of the at most 50 half-period iterations.
(The embedding `horizon` is a total function, so termination itself holds by
construction.) -/
theorem horizon_search_bounded (val : ℝ) : horizon_steps val 2 100 ≤ 50 :=
  horizon_steps_le val 49 2 (by omega)

/-- Claim C10: `__declination_angle` is periodic with period 365.25 days: for
every day of year, hour, and integer `k` with `day_of_year + 365.25·k ≥ 0`,
both returned components (declination and time correction) are unchanged by
the shift. -/
theorem declination_periodic (jd h : ℝ) (k : ℤ)
    (hk : 0 ≤ jd + 365.25 * k) :
    declination_angle (jd + 365.25 * k) h = declination_angle jd h := by
  rw [declination_angle_eq_series, declination_angle_eq_series,
    fractional_year_angle_add, declination_series_add_int]

/-- Claim C10, witness: Instance at `day_of_year = 1`, `hour = 0`, `k = 1`. -/
theorem declination_periodic_witness :
    (0 : ℝ) ≤ 1 + 365.25 * ((1 : ℤ) : ℝ) ∧
    declination_angle (1 + 365.25 * ((1 : ℤ) : ℝ)) 0 = declination_angle 1 0 :=
  ⟨by norm_num, declination_periodic 1 0 1 (by norm_num)⟩

/-- Claim C6: Whenever the computed sunset cosine
`zcoshouranglesunset = −tan(dec)·sin(lat)/cos(lat)` (with the `1e-12` floors
of the source) exceeds 1 — permanent polar night for the period — the
integrated function returns 0, for every longitude, hour, base and step. -/
theorem integrated_zero_in_polar_night (lat lon y m d h : ℝ) (base : ℤ)
    (step : ℝ) (hzc : 1 < zcoshouranglesunset_of lat y m d h) :
    calculate_cos_solar_zenith_angle_integrated lat lon y m d h base step = 0 := by
  unfold calculate_cos_solar_zenith_angle_integrated solar_zenith_angle_average
  rw [if_neg (not_le.mpr hzc)]

/-- At day-of-year 1 and hour 4359 the fractional-year angle is exactly 180°,
so every trigonometric term of the declination series is exact:
the declination is 23.076964°. -/
lemma declination_at_g180 : (declination_angle 1 4359).1 = 23.076964 := by
  have hfy : fractional_year_angle 1 4359 = 180 := by
    unfold fractional_year_angle; norm_num
  have hw : wrap360 (180 : ℝ) = 180 := by
    rw [wrap360, if_neg (by norm_num : ¬ ((180 : ℝ) > 360))]
  unfold declination_angle
  rw [hfy, hw]
  unfold declination_series to_radians
  have hg : (180 : ℝ) * (Real.pi / 180) = Real.pi := by ring
  have h3c : Real.cos (3 * Real.pi) = -1 := by
    rw [show (3 : ℝ) * Real.pi = Real.pi + 2 * Real.pi by ring,
      Real.cos_add_two_pi, Real.cos_pi]
  have h3s : Real.sin (3 * Real.pi) = 0 := by
    rw [show (3 : ℝ) * Real.pi = Real.pi + 2 * Real.pi by ring,
      Real.sin_add_two_pi, Real.sin_pi]
  simp only [hg, Real.cos_pi, Real.sin_pi, Real.cos_two_pi, Real.sin_two_pi,
    h3c, h3s]
  norm_num

/-- A positive lower bound on `ztandec` at declination 23.076964°, via
`x − x³/4 < sin x` and the bounds `3.141592 < π < 3.15`. -/
lemma ztandec_at_witness : 1e-12 < ztandec_of 23.076964 := by
  unfold ztandec_of
  have hpi_lo := Real.pi_gt_3141592
  have hpi_hi := Real.pi_lt_315
  set x := (23.076964 : ℝ) * Real.pi / 180 with hx
  have hx_lo : 0.40 < x := by rw [hx]; nlinarith
  have hx_hi : x < 0.41 := by rw [hx]; nlinarith
  have hsin : 0.38 < Real.sin x := by
    have h := Real.sin_gt_sub_cube (by linarith) (by linarith)
    have hcube : x ^ 3 < 0.41 ^ 3 :=
      pow_lt_pow_left hx_hi (by linarith) (by norm_num)
    nlinarith
  have hmax_le : max (Real.cos x) 1e-12 ≤ 1 :=
    max_le (Real.cos_le_one x) (by norm_num)
  have hmax_pos : (0 : ℝ) < max (Real.cos x) 1e-12 :=
    lt_of_lt_of_le (by norm_num) (le_max_right _ _)
  have hdiv : Real.sin x ≤ Real.sin x / max (Real.cos x) 1e-12 := by
    rw [le_div_iff₀ hmax_pos]
    nlinarith
  linarith

/-- At latitude −90 (the south pole) with day-of-year 1 and hour 4359 — a
northern-summer instant — the sunset cosine computed by the integrated
function exceeds 1: the south pole is in polar night. -/
lemma zc_sunset_pole_gt_one : 1 < zcoshouranglesunset_of (-90) 2000 1 1 4359 := by
  unfold zcoshouranglesunset_of
  rw [show julian_date 1 1 2000 - julian_date 1 1 2000 + 1 = (1 : ℝ) by ring,
    declination_at_g180]
  have hlat : (-90 : ℝ) * to_radians = -(Real.pi / 2) := by
    unfold to_radians; ring
  rw [hlat, Real.sin_neg, Real.sin_pi_div_two, Real.cos_neg,
    Real.cos_pi_div_two, max_eq_right (by norm_num : (0 : ℝ) ≤ 1e-12)]
  rw [show -ztandec_of 23.076964 * -1 / 1e-12
      = ztandec_of 23.076964 / 1e-12 by ring]
  rw [lt_div_iff₀ (by norm_num : (0 : ℝ) < 1e-12)]
  linarith [ztandec_at_witness]

/-- Claim C6, witness: Concrete polar-night instance: south pole, day-of-year 1,
hour 4359 (an exact half-period of the fractional year), any base, step 6. -/
theorem integrated_zero_in_polar_night_witness :
    1 < zcoshouranglesunset_of (-90) 2000 1 1 4359 ∧
    calculate_cos_solar_zenith_angle_integrated (-90) 0 2000 1 1 4359 0 6 = 0 :=
  ⟨zc_sunset_pole_gt_one,
    integrated_zero_in_polar_night (-90) 0 2000 1 1 4359 0 6 zc_sunset_pole_gt_one⟩

end ThermoFeel
